import Mathlib

/-!
Shallow embedding of the campaign-creator video-generation backend
(src/agents/runway_agent.py, src/agents/pika_agent.py, src/app.py).

Provider responses and outbound payloads are JSON-like dictionaries; the
embedding models Python dictionaries as association lists together with
Python truthiness, dict.get defaulting and dict.update semantics.  Network
calls are made explicit: each adapter operation takes the outcome of its
single outbound HTTP call as an argument, and app-level handlers thread a
call counter so that claims about the number of outbound calls can be
stated.
-/

/-- JSON-like values, the wire data of both provider adapters. -/
inductive JValue where
  | null
  | str (s : String)
  | num (q : ℚ)
  | bool (b : Bool)
  | arr (xs : List JValue)
  | obj (fields : List (String × JValue))

/-- A Python dictionary with string keys, as the adapters build and return. -/
abbrev JDict := List (String × JValue)

/-- Python truthiness of a JSON value: None, 0, empty string, empty list and
empty dict are falsy, everything else truthy. -/
def truthy : JValue → Bool
  | .null => false
  | .str s => !s.isEmpty
  | .num q => q != 0
  | .bool b => b
  | .arr xs => !xs.isEmpty
  | .obj fs => !fs.isEmpty

/-- Value stored under a key, if the key is present (first binding wins). -/
def jget (d : JDict) (k : String) : Option JValue :=
  List.lookup k d

/-- Models Python d.get(k): absent keys give None. -/
def pyGet (d : JDict) (k : String) : JValue :=
  (jget d k).getD .null

/-- Models Python d.get(k, v): absent keys give the default v. -/
def pyGetD (d : JDict) (k : String) (v : JValue) : JValue :=
  (jget d k).getD v

/-- View a JSON value as a dictionary (the code only does this where the
provider shape guarantees a dict; a non-dict behaves as empty here). -/
def asObj : JValue → JDict
  | .obj fs => fs
  | _ => []

/-- View a JSON value as a string (used where the code assumes a string). -/
def asStr : JValue → String
  | .str s => s
  | _ => ""

/-- Store one key, replacing an existing binding in place or appending a new
one at the end, exactly as assignment into a Python dict behaves. -/
def setK (d : JDict) (k : String) (v : JValue) : JDict :=
  if (List.lookup k d).isSome then
    d.map (fun kv => if kv.1 = k then (k, v) else kv)
  else
    d ++ [(k, v)]

/-- Models Python d.update(kvs): each binding of kvs is stored in order. -/
def updateD (d : JDict) (kvs : JDict) : JDict :=
  kvs.foldl (fun acc kv => setK acc kv.1 kv.2) d

/-- Python int() applied to a rational: truncation toward zero. -/
def pyInt (q : ℚ) : ℤ :=
  if 0 ≤ q then ⌊q⌋ else ⌈q⌉

/-- Python x or y on optional strings: the first operand if truthy (present
and non-empty), otherwise the second. -/
def pyOrS : Option String → Option String → Option String
  | some s, b => if s.isEmpty then b else some s
  | none, b => b

/-- Python x or y on JSON values by truthiness. -/
def pyOrJ (a b : JValue) : JValue :=
  if truthy a then a else b

/-- Embed an optional string the way Python stores it into a dict:
None becomes JSON null. -/
def optStr : Option String → JValue
  | some s => .str s
  | none => .null

/-- Embed an optional number the way Python stores it into a dict. -/
def optNum : Option ℚ → JValue
  | some q => .num q
  | none => .null

/-- Truthiness of an optional number (e.g. metadata frameRate, progress
ratio): present and non-zero. -/
def truthyQ : Option ℚ → Bool
  | some q => q != 0
  | none => false

/-- Python str.startswith, over the characters of the strings. -/
def pyStartsWith (s pre : String) : Bool :=
  List.isPrefixOf pre.data s.data

/-- Python str.lower(), applied per character. -/
def pyLower (s : String) : String :=
  String.mk (s.data.map Char.toLower)

/-- The string stored under a key, when the key holds a string. -/
def strAt (d : JDict) (k : String) : Option String :=
  match jget d k with
  | some (.str s) => some s
  | _ => none

/-- The number stored under a key, when the key holds a number. -/
def numAt (d : JDict) (k : String) : Option ℚ :=
  match jget d k with
  | some (.num q) => some q
  | _ => none

/-- The nested dict stored under a key, when the key holds a dict. -/
def objAt (d : JDict) (k : String) : Option JDict :=
  match jget d k with
  | some (.obj fs) => some fs
  | _ => none

/-- True when the key is present and holds JSON null (a Python None that was
serialized rather than omitted). -/
def isNullAt (d : JDict) (k : String) : Bool :=
  match jget d k with
  | some .null => true
  | _ => false

/-- Key presence in a serialized dict. -/
def hasKey (d : JDict) (k : String) : Bool :=
  (jget d k).isSome

/-- The outcome of one outbound HTTP request, as the adapters observe it:
either a response with a status code, raw text and a parse attempt of the
body, or a raised transport exception. -/
inductive HttpResult (α : Type) where
  | resp (code : Nat) (text : String) (body : Except String α)
  | exc (msg : String)

namespace RunwayAgent

/-- Artifact metadata as read by check_status: metadata.frameRate,
metadata.duration, metadata.dimensions. -/
structure ArtifactMeta where
  frameRate : Option ℚ := none
  duration : Option ℚ := none
  dimensions : Option String := none

/-- One entry of the artifacts list of a completed Runway task.
a.get(\x7bm\x7d) readings of absent keys give none. -/
structure Artifact where
  url : Option String := none
  metadata : Option ArtifactMeta := none

/-- The parsed JSON body of a Runway task-status response, restricted to the
keys check_status reads.  An absent or null key is none; progressRatio is
kept as a rational (the code converts it with float()). -/
structure TaskResult where
  status : Option String := none
  progressRatio : Option ℚ := none
  progressText : Option String := none
  artifacts : List Artifact := []
  error : Option String := none

/-- The fixed status_map dict of RunwayAgent.check_status. -/
def status_map : List (String × String) :=
  [("PENDING", "pending"), ("PROCESSING", "processing"),
   ("SUCCEEDED", "completed"), ("FAILED", "failed")]

/-- metadata access a.get(\x7bm\x7d, \x7b\x7d): a missing metadata dict reads as empty. -/
def metaOf (a : Artifact) : ArtifactMeta :=
  a.metadata.getD {}

/-- The generator predicate of check_status: an artifact whose metadata has a
truthy frameRate. -/
def isVideoArtifact (a : Artifact) : Bool :=
  truthyQ (metaOf a).frameRate

/-- The mapped_status local of RunwayAgent.check_status, lines 198-206: the
fixed status_map table with a lowercased fallback for entries it does not
contain, applied to the provider status (default PENDING). -/
def mappedStatus (result : TaskResult) : String :=
  (List.lookup (result.status.getD "PENDING") status_map).getD
    (pyLower (result.status.getD "PENDING"))

/-- The progress local of RunwayAgent.check_status, lines 208-212: a truthy
(present, non-zero) ratio is scaled by 100 and truncated to an integer;
otherwise 100 exactly when the mapped status is completed, else 0. -/
def progressValue (result : TaskResult) : ℚ :=
  match result.progressRatio with
  | some q =>
    if q != 0 then (pyInt (q * 100) : ℚ)
    else if mappedStatus result = "completed" then 100 else 0
  | none => if mappedStatus result = "completed" then 100 else 0

/-- RunwayAgent.check_status, lines 186-250.  The single outbound GET is
explicit: its outcome is the argument.  raise_for_status on a 4xx/5xx code
and any parse failure both land in the outer except branch. -/
def check_status (task_id : String) (out : HttpResult TaskResult) : JDict :=
  match out with
  | .exc msg =>
    [("status", .str "error"), ("job_id", .str task_id),
     ("message", .str ("Error checking status: " ++ msg))]
  | .resp code _text body =>
    if 400 ≤ code then
      [("status", .str "error"), ("job_id", .str task_id),
       ("message", .str ("Error checking status: HTTP " ++ toString code))]
    else
      match body with
      | .error e =>
        [("status", .str "error"), ("job_id", .str task_id),
         ("message", .str ("Error checking status: " ++ e))]
      | .ok result =>
        let mapped_status := mappedStatus result
        let status_response : JDict :=
          [("status", .str mapped_status),
           ("job_id", .str task_id),
           ("progress", .num (progressValue result)),
           ("message", .str (result.progressText.getD "Processing video"))]
        if mapped_status = "completed" then
          if result.artifacts.isEmpty then status_response
          else
            match result.artifacts.find? isVideoArtifact with
            | some video_artifact =>
              updateD status_response
                [("video_url", optStr video_artifact.url),
                 ("metadata", .obj
                   [("duration", optNum (metaOf video_artifact).duration),
                    ("dimensions", optStr (metaOf video_artifact).dimensions),
                    ("frame_rate", optNum (metaOf video_artifact).frameRate)])]
            | none => status_response
        else if mapped_status = "failed" then
          updateD status_response
            [("message", .str ("Generation failed: " ++ result.error.getD "Unknown error"))]
        else status_response

end RunwayAgent


/-- The result of one adapter submission/upload: the normalized response
dict, the number of outbound HTTP calls performed, and the JSON payload
that was sent (none for the multipart upload). -/
structure SubmitResult where
  response : JDict
  outbound : Nat
  payload : Option JDict

/-- Python max(-10, min(10, x)) on a numeric JSON value, as the motion
controls are clamped; non-numbers are outside the modelled domain and are
passed through. -/
def clampJ : JValue → JValue
  | .num q => .num (max (-10) (min 10 q))
  | v => v

/-- True when the Python value is not None. -/
def isNotNone : JValue → Bool
  | .null => false
  | _ => true

namespace RunwayAgent

/-- The optional-parameter loop of RunwayAgent.generate_video: store
data[param] for each param whose value is truthy. -/
def addTruthyParams (data : JDict) (params : List String) (acc : JDict) : JDict :=
  params.foldl (fun a p => if truthy (pyGet data p) then setK a p (pyGet data p) else a) acc

/-- The motion-control loop of RunwayAgent.generate_video: store the
clamped data[param] for each param that is not None. -/
def addMotionParams (data : JDict) (params : List String) (acc : JDict) : JDict :=
  params.foldl (fun a p => if isNotNone (pyGet data p) then setK a p (clampJ (pyGet data p)) else a) acc

/-- The main-parameter keys of the optional loop. -/
def optionalParams : List String :=
  ["firstImage_assetId", "lastImage_assetId", "seed"]

/-- The motion-control keys. -/
def motionParams : List String :=
  ["horizontal", "vertical", "roll", "zoom", "pan", "tilt"]

/-- The JSON payload RunwayAgent.generate_video serializes from the request
dict, lines 139-154: four always-present fields, then optional parameters
only when truthy, then motion controls clamped to [-10, 10] when present. -/
def generationPayload (data : JDict) : JDict :=
  let base : JDict :=
    [("text_prompt", pyGetD data "text_prompt" (.str "")),
     ("aspect_ratio", pyGetD data "aspect_ratio" (.str "landscape")),
     ("seconds", pyGetD data "seconds" (.num 5)),
     ("exploreMode", pyGetD data "exploreMode" (.bool false))]
  addMotionParams data motionParams (addTruthyParams data optionalParams base)

/-- RunwayAgent.generate_video, lines 135-184.  The payload is always built
and posted (the code performs no field validation); the outcome of that one
POST is the argument.  raise_for_status failures, parse failures and a
missing taskId all fall into the except branch. -/
def generate_video (data : JDict) (out : HttpResult JDict) : SubmitResult :=
  let payload := generationPayload data
  match out with
  | .exc msg =>
    ⟨[("status", .str "error"),
      ("message", .str ("Error starting video generation: " ++ msg))], 1, some payload⟩
  | .resp code _text body =>
    if 400 ≤ code then
      ⟨[("status", .str "error"),
        ("message", .str ("Error starting video generation: HTTP " ++ toString code))], 1, some payload⟩
    else
      match body with
      | .error e =>
        ⟨[("status", .str "error"),
          ("message", .str ("Error starting video generation: " ++ e))], 1, some payload⟩
      | .ok result =>
        let task_id := pyGet result "taskId"
        if truthy task_id then
          ⟨[("status", .str "pending"),
            ("job_id", task_id),
            ("message", .str "Video generation started"),
            ("progress", .num 0)], 1, some payload⟩
        else
          ⟨[("status", .str "error"),
            ("message", .str "Error starting video generation: No taskId received from Runway API")],
           1, some payload⟩

/-- RunwayAgent.upload_asset, lines 87-133.  The adapter performs no
content-type validation of its own: the multipart POST is always issued.
HTTPError from raise_for_status and any other exception are converted to
error dicts. -/
def upload_asset (file_data : List Nat) (file_name content_type : String)
    (out : HttpResult JDict) : SubmitResult :=
  match out with
  | .exc msg =>
    ⟨[("status", .str "error"),
      ("message", .str ("Error uploading asset: " ++ msg))], 1, none⟩
  | .resp code _text body =>
    if 400 ≤ code then
      ⟨[("status", .str "error"),
        ("message", .str ("Upload failed: HTTP " ++ toString code))], 1, none⟩
    else
      match body with
      | .error e =>
        ⟨[("status", .str "error"),
          ("message", .str ("Error uploading asset: " ++ e))], 1, none⟩
      | .ok result =>
        ⟨[("status", .str "success"),
          ("asset_id", pyGet result "assetId"),
          ("url", pyGet result "url"),
          ("details", .obj result)], 1, none⟩

/-- RunwayAgent.get_assets, lines 17-85.  A 200 response with a parsable
body is a success; a 200 with an unparsable body, a non-200 code and a
transport exception each produce an error dict. -/
def get_assets (media_type : String) (offset limit : ℤ) (out : HttpResult JValue) : JDict :=
  match out with
  | .exc msg =>
    [("status", .str "error"), ("message", .str ("Request failed: " ++ msg))]
  | .resp code _text body =>
    if code = 200 then
      match body with
      | .ok result => [("status", .str "success"), ("assets", result)]
      | .error je =>
        [("status", .str "error"), ("message", .str ("Invalid JSON response: " ++ je))]
    else
      [("status", .str "error"),
       ("message", .str ("API returned status code " ++ toString code))]

end RunwayAgent

namespace PikaWebAgent

/-- One entry of the videos list of a Pika job-status response, restricted
to the keys check_job_status reads. -/
structure VideoEntry where
  status : Option String := none
  resultUrl : Option String := none
  sharingUrl : Option String := none
  videoPoster : Option String := none
  progress : Option ℚ := none

/-- The parsed body of a Pika job-status response: the job dict readings
and the videos list. -/
structure JobResult where
  jobStatus : Option String := none
  jobError : Option String := none
  videos : List VideoEntry := []

/-- videos_data: the first entry of the videos list when that list is
truthy, otherwise an empty dict, line 164. -/
def videosData (r : JobResult) : VideoEntry :=
  if r.videos.isEmpty then {} else r.videos.headD {}

/-- The job_status local of check_job_status, line 166: the job dict status
or, when falsy, the status of the first video entry. -/
def jobStatusOf (r : JobResult) : Option String :=
  pyOrS r.jobStatus (videosData r).status

/-- The status_data dict built on lines 168-173 before the per-state
updates: the raw provider status (or unknown), the job id and the two
polling hints; last_checked is the strftime reading of this call. -/
def statusData (job_id now : String) (r : JobResult) : JDict :=
  [("status", .str ((pyOrS (jobStatusOf r) (some "unknown")).getD "unknown")),
   ("job_id", .str job_id),
   ("last_checked", .str now),
   ("next_check", .str "30 seconds")]

/-- PikaWebAgent.check_job_status, lines 144-205.  The single outbound GET
is explicit.  The now argument is the time.strftime reading taken on every
call. -/
def check_job_status (job_id : String) (now : String) (out : HttpResult JobResult) : JDict :=
  match out with
  | .exc msg =>
    [("status", .str "error"), ("job_id", .str job_id),
     ("message", .str ("Error checking status: " ++ msg))]
  | .resp code text body =>
    if code ≠ 200 then
      [("status", .str "error"),
       ("message", .str ("Status check failed: " ++ text))]
    else
      match body with
      | .error e =>
        [("status", .str "error"), ("job_id", .str job_id),
         ("message", .str ("Error checking status: " ++ e))]
      | .ok result =>
        let vd := videosData result
        let job_status := jobStatusOf result
        let status_data := statusData job_id now result
        if job_status = some "finished" then
          let video_url := pyOrS vd.resultUrl vd.sharingUrl
          updateD status_data
            [("status", .str "completed"),
             ("video_url", optStr video_url),
             ("poster_url", optStr vd.videoPoster),
             ("progress", .num 100),
             ("message", .str "Video generation completed")]
        else if job_status = some "failed" then
          updateD status_data
            [("message", .str ("Generation failed: " ++ result.jobError.getD "Unknown error"))]
        else if job_status = some "queued" ∨ job_status = some "processing" then
          updateD status_data
            [("progress", .num (vd.progress.getD 0)),
             ("message", .str "Video generation in progress"),
             ("estimated_time", .str "Processing time varies based on queue and video complexity")]
        else status_data

/-- user_options of PikaWebAgent.generate_video: data.get(options-key, empty). -/
def userOptions (data : JDict) : JDict :=
  asObj (pyGetD data "options" (.obj []))

/-- user_options.get(parameters-key, empty). -/
def userParameters (data : JDict) : JDict :=
  asObj (pyGetD (userOptions data) "parameters" (.obj []))

/-- The explicit camera default the provider requires. -/
def cameraDefault : JDict :=
  [("pan", .str "none"), ("tilt", .str "none"),
   ("rotate", .str "none"), ("zoom", .str "none")]

/-- The parameters sub-dict of the Pika payload, lines 90-95.  Note that
seed is read with a bare get: an absent seed is serialized as null. -/
def payloadParameters (data : JDict) : JDict :=
  [("motion", pyGetD (userParameters data) "motion" (.num 1)),
   ("guidanceScale", pyGetD (userParameters data) "guidanceScale" (.num 12)),
   ("negativePrompt", pyGetD (userParameters data) "negativePrompt" (.str "")),
   ("seed", pyGet (userParameters data) "seed")]

/-- The options sub-dict of the Pika payload, lines 81-97. -/
def payloadOptions (data : JDict) : JDict :=
  [("aspectRatio", pyGetD (userOptions data) "aspectRatio" (.str "5:2")),
   ("frameRate", pyGetD (userOptions data) "frameRate" (.num 24)),
   ("camera", pyGetD (userOptions data) "camera" (.obj cameraDefault)),
   ("parameters", .obj (payloadParameters data)),
   ("extend", pyGetD (userOptions data) "extend" (.bool false))]

/-- The full payload PikaWebAgent.generate_video serializes, lines 68-98.
pikaffect is read with a bare get and always serialized, null when absent;
the prompt is prefixed with the effect only when the effect is truthy. -/
def generationPayload (data : JDict) : JDict :=
  let transcript := pyGetD data "promptText" (.str "")
  let pika_effect := pyGet data "pikaffect"
  let prompt_text :=
    if truthy pika_effect then .str (asStr pika_effect ++ " " ++ asStr transcript)
    else transcript
  [("promptText", prompt_text),
   ("model", pyGetD data "model" (.str "1.5")),
   ("pikaffect", pika_effect),
   ("options", .obj (payloadOptions data))]

/-- PikaWebAgent.generate_video, lines 64-142.  The payload is always built
and posted; the job id is extracted from one of three nested keys; a 200
response without an extractable id raises and is caught by the except
branch. -/
def generate_video (data : JDict) (out : HttpResult JValue) : SubmitResult :=
  let payload := generationPayload data
  match out with
  | .exc msg =>
    ⟨[("status", .str "error"),
      ("message", .str ("Error starting video generation: " ++ msg))], 1, some payload⟩
  | .resp code text body =>
    if code ≠ 200 then
      ⟨[("status", .str "error"),
        ("message", .str ("API Error: " ++ text))], 1, some payload⟩
    else
      match body with
      | .error e =>
        ⟨[("status", .str "error"),
          ("message", .str ("Error starting video generation: " ++ e))], 1, some payload⟩
      | .ok result =>
        match result with
        | .obj fs =>
          let job_id :=
            pyOrJ (pyGet (asObj (pyGetD fs "job" (.obj []))) "id")
              (pyOrJ (pyGet (asObj (pyGetD fs "video" (.obj []))) "jobId")
                (pyGet fs "jobId"))
          if truthy job_id then
            ⟨[("status", .str "pending"),
              ("job_id", job_id),
              ("message", .str "Video generation started"),
              ("details", .obj fs)], 1, some payload⟩
          else
            ⟨[("status", .str "error"),
              ("message", .str "Error starting video generation: Invalid API response format")],
             1, some payload⟩
        | _ =>
          ⟨[("status", .str "error"),
            ("message", .str "Error starting video generation: Invalid API response format")],
           1, some payload⟩

/-- Python str.strip() over explicit characters: whitespace dropped from
both ends. -/
def pyStrip (s : List Char) : List Char :=
  ((s.dropWhile Char.isWhitespace).reverse.dropWhile Char.isWhitespace).reverse

/-- PikaWebAgent.optimize_prompt, lines 36-62, with text as explicit
character lists.  The crew outcome is the opaque LLM collaborator: some
output on success, none when it raised.  The success path strips and
truncates to 300 characters; the except branch returns the first 300
characters of the transcript. -/
def optimize_prompt (transcript : List Char) (crewOutcome : Option (List Char)) : List Char :=
  match crewOutcome with
  | some prompt => (pyStrip prompt).take 300
  | none => transcript.take 300

end PikaWebAgent

/-- The terminal normalized job states of the status model. -/
def isTerminal : Option String → Bool
  | some s => s == "completed" || s == "failed" || s == "error"
  | none => false

namespace App

/-- The app-level status endpoint get_video_status, src/app.py lines
222-231: every invocation calls pika_agent.check_job_status, which performs
one outbound GET.  The provider is a function from the index of the
outbound call to its outcome, and the Nat is the running outbound-call
count; there is no registry and no caching of terminal statuses. -/
def get_video_status (provider : Nat → HttpResult PikaWebAgent.JobResult)
    (calls : Nat) (job_id now : String) : JDict × Nat :=
  (PikaWebAgent.check_job_status job_id now (provider calls), calls + 1)

/-- The app-level upload endpoint upload_runway_asset, src/app.py lines
267-315: the image content-type gate lives here, before the adapter is
invoked.  The Nat of the result counts outbound HTTP calls. -/
def upload_runway_asset (hasFile : Bool) (filename : String)
    (formName : Option String) (content_type : String) (file_data : List Nat)
    (out : HttpResult JDict) : JDict × Nat :=
  if !hasFile then
    ([("status", .str "error"), ("message", .str "No file provided")], 0)
  else
    let name := formName.getD filename
    if filename = "" then
      ([("status", .str "error"), ("message", .str "No file selected")], 0)
    else if !(pyStartsWith content_type "image/") then
      ([("status", .str "error"), ("message", .str "Only image files are allowed")], 0)
    else
      let r := RunwayAgent.upload_asset file_data name content_type out
      (r.response, r.outbound)

end App

theorem lookup_cons_kv (k : String) (kv : String × JValue) (tl : JDict) :
    List.lookup k (kv :: tl) = if k = kv.1 then some kv.2 else List.lookup k tl := by
  rcases kv with ⟨k0, v0⟩
  by_cases h : k = k0
  · subst h
    simp [List.lookup]
  · have hb : (k == k0) = false := beq_false_of_ne h
    simp [List.lookup, hb, h]

theorem lookup_overwrite_self (d : JDict) (k : String) (v : JValue)
    (h : (List.lookup k d).isSome) :
    List.lookup k (d.map fun kv => if kv.1 = k then (k, v) else kv) = some v := by
  induction d with
  | nil => simp [List.lookup] at h
  | cons kv tl ih =>
    by_cases hk : kv.1 = k
    · simp only [List.map_cons, hk, if_true]
      simp [lookup_cons_kv]
    · simp only [List.map_cons, hk, if_false]
      rw [lookup_cons_kv] at h ⊢
      have hne : ¬ k = kv.1 := fun he => hk he.symm
      simp only [hne, if_false] at h ⊢
      exact ih h

theorem lookup_overwrite_other (d : JDict) (k k' : String) (v : JValue)
    (h : k ≠ k') :
    List.lookup k (d.map fun kv => if kv.1 = k' then (k', v) else kv)
      = List.lookup k d := by
  induction d with
  | nil => simp
  | cons kv tl ih =>
    by_cases hk : kv.1 = k'
    · simp only [List.map_cons, hk, if_true]
      rw [lookup_cons_kv, lookup_cons_kv]
      have hne : ¬ k = kv.1 := by
        rw [hk]; exact h
      simp only [h, hne, if_false]
      exact ih
    · simp only [List.map_cons, hk, if_false]
      rw [lookup_cons_kv, lookup_cons_kv]
      by_cases hkk : k = kv.1
      · simp [hkk]
      · simp only [hkk, if_false]
        exact ih

theorem lookup_append_first (d e : JDict) (k : String)
    (h : (List.lookup k d).isSome) :
    List.lookup k (d ++ e) = List.lookup k d := by
  induction d with
  | nil => simp [List.lookup] at h
  | cons kv tl ih =>
    rw [List.cons_append, lookup_cons_kv, lookup_cons_kv]
    rw [lookup_cons_kv] at h
    by_cases hk : k = kv.1
    · simp [hk]
    · simp only [hk, if_false] at h ⊢
      exact ih h

theorem lookup_append_second (d e : JDict) (k : String)
    (h : List.lookup k d = none) :
    List.lookup k (d ++ e) = List.lookup k e := by
  induction d with
  | nil => simp
  | cons kv tl ih =>
    rw [List.cons_append, lookup_cons_kv]
    rw [lookup_cons_kv] at h
    by_cases hk : k = kv.1
    · simp [hk] at h
    · simp only [hk, if_false] at h ⊢
      exact ih h

theorem lookup_setK_self (d : JDict) (k : String) (v : JValue) :
    List.lookup k (setK d k v) = some v := by
  unfold setK
  by_cases h : (List.lookup k d).isSome
  · simp only [h, if_true]
    exact lookup_overwrite_self d k v h
  · rw [if_neg h]
    rw [lookup_append_second]
    · simp [lookup_cons_kv]
    · rcases ho : List.lookup k d with _ | w
      · rfl
      · rw [ho] at h; simp at h

theorem lookup_setK_other (d : JDict) (k k' : String) (v : JValue)
    (h : k ≠ k') : List.lookup k (setK d k' v) = List.lookup k d := by
  unfold setK
  by_cases hs : (List.lookup k' d).isSome
  · simp only [hs, if_true]
    exact lookup_overwrite_other d k k' v h
  · rw [if_neg hs]
    rcases ho : List.lookup k d with _ | w
    · rw [lookup_append_second d _ k ho]
      simp [lookup_cons_kv, h]
    · rw [lookup_append_first d _ k (by rw [ho]; rfl), ho]


theorem lookup_ite_setK {c : Prop} [Decidable c] (a : JDict) (p : String) (v : JValue)
    (k : String) (h : k ≠ p) :
    List.lookup k (if c then setK a p v else a) = List.lookup k a := by
  split
  · exact lookup_setK_other a k p v h
  · rfl

theorem lookup_foldl_setK_not_mem (c : String → Bool) (g : String → JValue)
    (params : List String) (acc : JDict) (k : String) (hk : k ∉ params) :
    List.lookup k (params.foldl (fun a p => if c p then setK a p (g p) else a) acc)
      = List.lookup k acc := by
  induction params generalizing acc with
  | nil => rfl
  | cons p ps ih =>
    rw [List.foldl_cons]
    have hk1 : k ≠ p := by
      intro he; exact hk (he ▸ List.mem_cons_self p ps)
    have hk2 : k ∉ ps := fun hm => hk (List.mem_cons_of_mem p hm)
    rw [ih _ hk2, lookup_ite_setK _ _ _ _ hk1]

theorem lookup_foldl_setK_cond_false (c : String → Bool) (g : String → JValue)
    (params : List String) (acc : JDict) (k : String) (hck : c k = false)
    (hacc : List.lookup k acc = none) :
    List.lookup k (params.foldl (fun a p => if c p then setK a p (g p) else a) acc)
      = none := by
  induction params generalizing acc with
  | nil => exact hacc
  | cons p ps ih =>
    rw [List.foldl_cons]
    refine ih _ ?_
    by_cases hp : k = p
    · subst hp
      simp only [hck, Bool.false_eq_true, if_false]
      exact hacc
    · rw [lookup_ite_setK _ _ _ _ hp]
      exact hacc

theorem find_congr_pred {α : Type} (p q : α → Bool) (l : List α)
    (h : ∀ x ∈ l, p x = q x) : l.find? p = l.find? q := by
  induction l with
  | nil => rfl
  | cons a t ih =>
    have ha := h a (List.mem_cons_self a t)
    cases hpa : p a with
    | true =>
      rw [List.find?_cons_of_pos _ hpa, List.find?_cons_of_pos _ (by rw [← ha, hpa])]
    | false =>
      rw [List.find?_cons_of_neg _ (by rw [hpa]; exact Bool.false_ne_true),
          List.find?_cons_of_neg _ (by rw [← ha, hpa]; exact Bool.false_ne_true)]
      exact ih fun x hx => h x (List.mem_cons_of_mem a hx)

theorem find_some_not_isEmpty {α : Type} (p : α → Bool) (l : List α) (a : α)
    (h : l.find? p = some a) : l.isEmpty = false := by
  cases l with
  | nil => simp [List.find?] at h
  | cons b t => rfl

namespace RunwayAgent

theorem check_status_progress_field (task_id : String) (code : Nat) (text : String)
    (result : TaskResult) (hc : ¬ 400 ≤ code) :
    numAt (check_status task_id (.resp code text (.ok result))) "progress"
      = some (progressValue result) := by
  simp only [check_status]
  rw [if_neg hc]
  by_cases hcomp : mappedStatus result = "completed"
  · rw [if_pos hcomp]
    by_cases hemp : result.artifacts.isEmpty
    · rw [if_pos hemp]
      simp [numAt, jget, lookup_cons_kv]
    · rw [if_neg hemp]
      cases hf : result.artifacts.find? isVideoArtifact with
      | none => simp [numAt, jget, lookup_cons_kv]
      | some a =>
        simp only [updateD, List.foldl]
        unfold numAt jget
        rw [lookup_setK_other _ _ _ _ (by decide), lookup_setK_other _ _ _ _ (by decide)]
        simp [lookup_cons_kv]
  · rw [if_neg hcomp]
    by_cases hfail : mappedStatus result = "failed"
    · rw [if_pos hfail]
      simp only [updateD, List.foldl]
      unfold numAt jget
      rw [lookup_setK_other _ _ _ _ (by decide)]
      simp [lookup_cons_kv]
    · rw [if_neg hfail]
      simp [numAt, jget, lookup_cons_kv]

theorem check_status_video_url_some (task_id : String) (code : Nat) (text : String)
    (result : TaskResult) (a : Artifact) (hc : ¬ 400 ≤ code)
    (hcomp : mappedStatus result = "completed")
    (hf : result.artifacts.find? isVideoArtifact = some a) :
    jget (check_status task_id (.resp code text (.ok result))) "video_url"
      = some (optStr a.url) := by
  simp only [check_status]
  rw [if_neg hc, if_pos hcomp, if_neg (by rw [find_some_not_isEmpty _ _ _ hf]; exact Bool.false_ne_true), hf]
  simp only [updateD, List.foldl]
  unfold jget
  rw [lookup_setK_other _ _ _ _ (by decide), lookup_setK_self]

theorem check_status_video_url_none (task_id : String) (code : Nat) (text : String)
    (result : TaskResult) (hc : ¬ 400 ≤ code)
    (hcomp : mappedStatus result = "completed")
    (hf : result.artifacts.find? isVideoArtifact = none) :
    hasKey (check_status task_id (.resp code text (.ok result))) "video_url" = false := by
  simp only [check_status]
  rw [if_neg hc, if_pos hcomp]
  by_cases hemp : result.artifacts.isEmpty
  · rw [if_pos hemp]
    simp [hasKey, jget, lookup_cons_kv]
  · rw [if_neg hemp, hf]
    simp [hasKey, jget, lookup_cons_kv]

end RunwayAgent

theorem hasKey_of_strAt (d : JDict) (k s : String) (h : strAt d k = some s) :
    hasKey d k = true := by
  unfold strAt jget at h
  unfold hasKey jget
  cases hl : List.lookup k d with
  | none => rw [hl] at h; simp at h
  | some v => rfl

namespace PikaWebAgent

theorem check_job_status_passthrough (job_id now text : String) (result : JobResult)
    (j : String) (hj : jobStatusOf result = some j) (hne : j ≠ "")
    (h1 : j ≠ "finished") (h2 : j ≠ "failed") (h3 : j ≠ "queued") (h4 : j ≠ "processing") :
    strAt (check_job_status job_id now (.resp 200 text (.ok result))) "status" = some j := by
  simp only [check_job_status]
  rw [if_neg (by omega), hj]
  rw [if_neg (by simpa using h1), if_neg (by simpa using h2),
      if_neg (by rintro (hq | hp) <;> simp_all)]
  have hje : j.isEmpty = false := by
    cases hcc : j.isEmpty
    · rfl
    · exact absurd ((String.isEmpty_iff j).mp hcc) hne
  simp [statusData, strAt, jget, lookup_cons_kv, hj, pyOrS, hje]

theorem check_job_status_has_status (job_id now : String) (out : HttpResult JobResult) :
    hasKey (check_job_status job_id now out) "status" = true := by
  cases out with
  | exc msg => simp [check_job_status, hasKey, jget, lookup_cons_kv]
  | resp code text body =>
    cases body with
    | error e =>
      simp only [check_job_status]
      by_cases hcode : code ≠ 200
      · rw [if_pos hcode]
        simp [hasKey, jget, lookup_cons_kv]
      · rw [if_neg hcode]
        simp [hasKey, jget, lookup_cons_kv]
    | ok result =>
      simp only [check_job_status]
      by_cases hcode : code ≠ 200
      · rw [if_pos hcode]
        simp [hasKey, jget, lookup_cons_kv]
      · rw [if_neg hcode]
        by_cases hf : jobStatusOf result = some "finished"
        · rw [if_pos hf]
          simp only [updateD, List.foldl]
          unfold hasKey jget
          rw [lookup_setK_other _ _ _ _ (by decide), lookup_setK_other _ _ _ _ (by decide),
              lookup_setK_other _ _ _ _ (by decide), lookup_setK_other _ _ _ _ (by decide),
              lookup_setK_self]
          rfl
        · rw [if_neg hf]
          by_cases hfl : jobStatusOf result = some "failed"
          · rw [if_pos hfl]
            simp only [updateD, List.foldl]
            unfold hasKey jget
            rw [lookup_setK_other _ _ _ _ (by decide)]
            simp [statusData, lookup_cons_kv]
          · rw [if_neg hfl]
            by_cases hq : jobStatusOf result = some "queued" ∨ jobStatusOf result = some "processing"
            · rw [if_pos hq]
              simp only [updateD, List.foldl]
              unfold hasKey jget
              rw [lookup_setK_other _ _ _ _ (by decide), lookup_setK_other _ _ _ _ (by decide),
                  lookup_setK_other _ _ _ _ (by decide)]
              simp [statusData, lookup_cons_kv]
            · rw [if_neg hq]
              simp [statusData, hasKey, jget, lookup_cons_kv]

end PikaWebAgent

namespace RunwayAgent

theorem check_status_status_field (task_id : String) (code : Nat) (text : String)
    (result : TaskResult) (hc : ¬ 400 ≤ code) :
    strAt (check_status task_id (.resp code text (.ok result))) "status"
      = some (mappedStatus result) := by
  simp only [check_status]
  rw [if_neg hc]
  by_cases hcomp : mappedStatus result = "completed"
  · rw [if_pos hcomp]
    by_cases hemp : result.artifacts.isEmpty
    · rw [if_pos hemp]
      simp [strAt, jget, lookup_cons_kv]
    · rw [if_neg hemp]
      cases hf : result.artifacts.find? isVideoArtifact with
      | none => simp [strAt, jget, lookup_cons_kv]
      | some a =>
        simp only [updateD, List.foldl]
        unfold strAt jget
        rw [lookup_setK_other _ _ _ _ (by decide), lookup_setK_other _ _ _ _ (by decide)]
        simp [lookup_cons_kv]
  · rw [if_neg hcomp]
    by_cases hfail : mappedStatus result = "failed"
    · rw [if_pos hfail]
      simp only [updateD, List.foldl]
      unfold strAt jget
      rw [lookup_setK_other _ _ _ _ (by decide)]
      simp [lookup_cons_kv]
    · rw [if_neg hfail]
      simp [strAt, jget, lookup_cons_kv]

end RunwayAgent

namespace RunwayAgent

theorem check_status_has_status (task_id : String) (out : HttpResult TaskResult) :
    hasKey (check_status task_id out) "status" = true := by
  cases out with
  | exc msg => simp [check_status, hasKey, jget, lookup_cons_kv]
  | resp code text body =>
    cases body with
    | error e =>
      simp only [check_status]
      by_cases hc : 400 ≤ code
      · rw [if_pos hc]; simp [hasKey, jget, lookup_cons_kv]
      · rw [if_neg hc]; simp [hasKey, jget, lookup_cons_kv]
    | ok result =>
      simp only [check_status]
      by_cases hc : 400 ≤ code
      · rw [if_pos hc]; simp [hasKey, jget, lookup_cons_kv]
      · rw [if_neg hc]
        exact hasKey_of_strAt _ _ _ (by
          have := check_status_status_field task_id code text result hc
          simpa [check_status, if_neg hc] using this)

theorem generate_video_has_status (data : JDict) (out : HttpResult JDict) :
    hasKey (generate_video data out).response "status" = true := by
  cases out with
  | exc msg => simp [generate_video, hasKey, jget, lookup_cons_kv]
  | resp code text body =>
    cases body with
    | error e =>
      simp only [generate_video]
      by_cases hc : 400 ≤ code
      · rw [if_pos hc]; simp [hasKey, jget, lookup_cons_kv]
      · rw [if_neg hc]; simp [hasKey, jget, lookup_cons_kv]
    | ok result =>
      simp only [generate_video]
      by_cases hc : 400 ≤ code
      · rw [if_pos hc]; simp [hasKey, jget, lookup_cons_kv]
      · rw [if_neg hc]
        by_cases ht : truthy (pyGet result "taskId") = true
        · rw [if_pos ht]; simp [hasKey, jget, lookup_cons_kv]
        · rw [if_neg ht]; simp [hasKey, jget, lookup_cons_kv]

theorem upload_asset_has_status (file_data : List Nat) (fn ct : String)
    (out : HttpResult JDict) :
    hasKey (upload_asset file_data fn ct out).response "status" = true := by
  cases out with
  | exc msg => simp [upload_asset, hasKey, jget, lookup_cons_kv]
  | resp code text body =>
    cases body with
    | error e =>
      simp only [upload_asset]
      by_cases hc : 400 ≤ code
      · rw [if_pos hc]; simp [hasKey, jget, lookup_cons_kv]
      · rw [if_neg hc]; simp [hasKey, jget, lookup_cons_kv]
    | ok result =>
      simp only [upload_asset]
      by_cases hc : 400 ≤ code
      · rw [if_pos hc]; simp [hasKey, jget, lookup_cons_kv]
      · rw [if_neg hc]; simp [hasKey, jget, lookup_cons_kv]

theorem get_assets_has_status (mt : String) (o l : ℤ) (out : HttpResult JValue) :
    hasKey (get_assets mt o l out) "status" = true := by
  cases out with
  | exc msg => simp [get_assets, hasKey, jget, lookup_cons_kv]
  | resp code text body =>
    cases body with
    | error e =>
      simp only [get_assets]
      by_cases hc : code = 200
      · rw [if_pos hc]; simp [hasKey, jget, lookup_cons_kv]
      · rw [if_neg hc]; simp [hasKey, jget, lookup_cons_kv]
    | ok result =>
      simp only [get_assets]
      by_cases hc : code = 200
      · rw [if_pos hc]; simp [hasKey, jget, lookup_cons_kv]
      · rw [if_neg hc]; simp [hasKey, jget, lookup_cons_kv]

end RunwayAgent

namespace PikaWebAgent

theorem pika_generate_video_has_status (data : JDict) (out : HttpResult JValue) :
    hasKey (generate_video data out).response "status" = true := by
  cases out with
  | exc msg => simp [generate_video, hasKey, jget, lookup_cons_kv]
  | resp code text body =>
    cases body with
    | error e =>
      simp only [generate_video]
      by_cases hc : code ≠ 200
      · rw [if_pos hc]; simp [hasKey, jget, lookup_cons_kv]
      · rw [if_neg hc]; simp [hasKey, jget, lookup_cons_kv]
    | ok result =>
      cases result with
      | obj fs =>
        simp only [generate_video]
        by_cases hc : code ≠ 200
        · rw [if_pos hc]; simp [hasKey, jget, lookup_cons_kv]
        · rw [if_neg hc]
          by_cases ht : truthy (pyOrJ (pyGet (asObj (pyGetD fs "job" (.obj []))) "id")
            (pyOrJ (pyGet (asObj (pyGetD fs "video" (.obj []))) "jobId") (pyGet fs "jobId"))) = true
          · rw [if_pos ht]; simp [hasKey, jget, lookup_cons_kv]
          · rw [if_neg ht]; simp [hasKey, jget, lookup_cons_kv]
      | null =>
        simp only [generate_video]
        by_cases hc : code ≠ 200
        · rw [if_pos hc]; simp [hasKey, jget, lookup_cons_kv]
        · rw [if_neg hc]; simp [hasKey, jget, lookup_cons_kv]
      | str s =>
        simp only [generate_video]
        by_cases hc : code ≠ 200
        · rw [if_pos hc]; simp [hasKey, jget, lookup_cons_kv]
        · rw [if_neg hc]; simp [hasKey, jget, lookup_cons_kv]
      | num q =>
        simp only [generate_video]
        by_cases hc : code ≠ 200
        · rw [if_pos hc]; simp [hasKey, jget, lookup_cons_kv]
        · rw [if_neg hc]; simp [hasKey, jget, lookup_cons_kv]
      | bool b =>
        simp only [generate_video]
        by_cases hc : code ≠ 200
        · rw [if_pos hc]; simp [hasKey, jget, lookup_cons_kv]
        · rw [if_neg hc]; simp [hasKey, jget, lookup_cons_kv]
      | arr xs =>
        simp only [generate_video]
        by_cases hc : code ≠ 200
        · rw [if_pos hc]; simp [hasKey, jget, lookup_cons_kv]
        · rw [if_neg hc]; simp [hasKey, jget, lookup_cons_kv]

end PikaWebAgent

/-- C1 counterexample: a Runway poll that reports SUCCEEDED with a single
non-video artifact (no frameRate in its metadata) is normalized to status
completed with no video_url field at all, not to an error. -/
theorem completed_without_video_url_counterexample_C1 :
    strAt (RunwayAgent.check_status "task-1"
      (HttpResult.resp 200 "" (.ok { status := some "SUCCEEDED",
                                     artifacts := [{ url := some "https://cdn.example/poster.png",
                                                     metadata := some {} }] })))
      "status" = some "completed" ∧
    hasKey (RunwayAgent.check_status "task-1"
      (HttpResult.resp 200 "" (.ok { status := some "SUCCEEDED",
                                     artifacts := [{ url := some "https://cdn.example/poster.png",
                                                     metadata := some {} }] })))
      "video_url" = false := by
  constructor
  · simp [RunwayAgent.check_status, RunwayAgent.mappedStatus, RunwayAgent.status_map,
          RunwayAgent.isVideoArtifact, RunwayAgent.metaOf, truthyQ, strAt, jget,
          List.lookup, pyLower]
  · simp [RunwayAgent.check_status, RunwayAgent.mappedStatus, RunwayAgent.status_map,
          RunwayAgent.isVideoArtifact, RunwayAgent.metaOf, truthyQ, hasKey, jget,
          List.lookup, pyLower]

/-- C1 amended: when a Runway poll is normalized to completed, the result
carries a video_url exactly when some artifact has a truthy frameRate (it
is then the first such artifact's url); when no artifact qualifies the
adapter still reports completed and merely omits the video_url field. -/
theorem completed_video_url_presence_C1 (task_id text : String) (code : Nat)
    (result : RunwayAgent.TaskResult) (hc : ¬ 400 ≤ code)
    (hs : RunwayAgent.mappedStatus result = "completed") :
    (result.artifacts.find? RunwayAgent.isVideoArtifact = none →
      strAt (RunwayAgent.check_status task_id (.resp code text (.ok result))) "status"
          = some "completed" ∧
      hasKey (RunwayAgent.check_status task_id (.resp code text (.ok result))) "video_url"
          = false) ∧
    (∀ a, result.artifacts.find? RunwayAgent.isVideoArtifact = some a →
      jget (RunwayAgent.check_status task_id (.resp code text (.ok result))) "video_url"
          = some (optStr a.url)) := by
  constructor
  · intro hf
    refine ⟨?_, RunwayAgent.check_status_video_url_none _ _ _ _ hc hs hf⟩
    rw [RunwayAgent.check_status_status_field _ _ _ _ hc, hs]
  · intro a hf
    exact RunwayAgent.check_status_video_url_some _ _ _ _ _ hc hs hf

theorem completed_video_url_presence_C1_witness :
    jget (RunwayAgent.check_status "task-1"
      (HttpResult.resp 200 "" (.ok { status := some "SUCCEEDED",
                                     artifacts := [{ url := some "https://cdn.example/clip.mp4",
                                                     metadata := some { frameRate := some 24 } }] })))
      "video_url" = some (.str "https://cdn.example/clip.mp4") := by
  have h := (completed_video_url_presence_C1 "task-1" "" 200
    { status := some "SUCCEEDED",
      artifacts := [{ url := some "https://cdn.example/clip.mp4",
                      metadata := some { frameRate := some 24 } }] }
    (by omega)
    (by simp [RunwayAgent.mappedStatus, RunwayAgent.status_map, List.lookup])).2
    { url := some "https://cdn.example/clip.mp4", metadata := some { frameRate := some 24 } }
    (by simp only [List.find?, RunwayAgent.isVideoArtifact, RunwayAgent.metaOf, truthyQ,
          Option.getD_some]
        rw [show ((24 : ℚ) != 0) = true from by norm_num [bne_iff_ne]])
  simpa [optStr] using h

/-- C2 counterexample: the provider status CANCELLED is not in the Runway
status_map, and the adapter normalizes it to its lowercased form cancelled
rather than to pending. -/
theorem unrecognized_status_counterexample_C2 :
    strAt (RunwayAgent.check_status "task-1"
      (HttpResult.resp 200 "" (.ok { status := some "CANCELLED" })))
      "status" = some "cancelled" ∧
    strAt (RunwayAgent.check_status "task-1"
      (HttpResult.resp 200 "" (.ok { status := some "CANCELLED" })))
      "status" ≠ some "pending" := by
  constructor
  · simp [RunwayAgent.check_status, RunwayAgent.mappedStatus, RunwayAgent.status_map,
          strAt, jget, List.lookup, pyLower]
  · simp [RunwayAgent.check_status, RunwayAgent.mappedStatus, RunwayAgent.status_map,
          strAt, jget, List.lookup, pyLower]

/-- C2 amended: statuses present in the Runway status_map are mapped through
the fixed table, but a provider status absent from the table is normalized
to its lowercased form (not to pending); the Pika adapter passes an
unrecognized, non-empty provider status through unchanged. -/
theorem status_mapping_tables_C2 :
    (∀ (task_id text : String) (code : Nat) (result : RunwayAgent.TaskResult) (s m : String),
      ¬ 400 ≤ code → result.status = some s →
      List.lookup s RunwayAgent.status_map = some m →
      strAt (RunwayAgent.check_status task_id (.resp code text (.ok result))) "status"
        = some m) ∧
    (∀ (task_id text : String) (code : Nat) (result : RunwayAgent.TaskResult) (s : String),
      ¬ 400 ≤ code → result.status = some s →
      List.lookup s RunwayAgent.status_map = none →
      strAt (RunwayAgent.check_status task_id (.resp code text (.ok result))) "status"
        = some (pyLower s)) ∧
    (∀ (job_id now text : String) (result : PikaWebAgent.JobResult) (j : String),
      PikaWebAgent.jobStatusOf result = some j → j ≠ "" →
      j ∉ ["finished", "failed", "queued", "processing"] →
      strAt (PikaWebAgent.check_job_status job_id now (.resp 200 text (.ok result))) "status"
        = some j) := by
  refine ⟨?_, ?_, ?_⟩
  · intro task_id text code result s m hc hs hm
    rw [RunwayAgent.check_status_status_field _ _ _ _ hc]
    simp [RunwayAgent.mappedStatus, hs, hm]
  · intro task_id text code result s hc hs hm
    rw [RunwayAgent.check_status_status_field _ _ _ _ hc]
    simp [RunwayAgent.mappedStatus, hs, hm]
  · intro job_id now text result j hj hne hmem
    refine PikaWebAgent.check_job_status_passthrough _ _ _ _ _ hj hne ?_ ?_ ?_ ?_ <;>
      (intro he; apply hmem; rw [he]; simp)

theorem status_mapping_tables_C2_witness :
    strAt (RunwayAgent.check_status "task-1"
      (HttpResult.resp 200 "" (.ok { status := some "FAILED" })))
      "status" = some "failed" := by
  exact status_mapping_tables_C2.1 "task-1" "" 200 { status := some "FAILED" } "FAILED" "failed"
    (by omega) rfl (by simp [RunwayAgent.status_map, List.lookup])

/-- C5: on a SUCCEEDED Runway poll whose listed artifacts declare only
non-zero frame rates when they declare one, the normalized video_url is the
url of the first artifact in list order whose metadata declares a
frameRate. -/
theorem video_artifact_selection_C5 (task_id text : String) (code : Nat)
    (result : RunwayAgent.TaskResult) (a : RunwayAgent.Artifact) (hc : ¬ 400 ≤ code)
    (hs : result.status = some "SUCCEEDED")
    (hnz : ∀ b ∈ result.artifacts, (RunwayAgent.metaOf b).frameRate ≠ some 0)
    (hf : result.artifacts.find? (fun b => ((RunwayAgent.metaOf b).frameRate).isSome) = some a) :
    jget (RunwayAgent.check_status task_id (.resp code text (.ok result))) "video_url"
      = some (optStr a.url) := by
  have hcomp : RunwayAgent.mappedStatus result = "completed" := by
    simp [RunwayAgent.mappedStatus, hs, RunwayAgent.status_map, List.lookup]
  have hpred : result.artifacts.find? RunwayAgent.isVideoArtifact = some a := by
    rw [← hf]
    apply find_congr_pred
    intro b hb
    cases hfr : (RunwayAgent.metaOf b).frameRate with
    | none => simp [RunwayAgent.isVideoArtifact, truthyQ, hfr]
    | some q =>
      have hq : q ≠ 0 := by
        intro h0
        exact (hnz b hb) (by rw [hfr, h0])
      simp [RunwayAgent.isVideoArtifact, truthyQ, hfr, hq]
  exact RunwayAgent.check_status_video_url_some _ _ _ _ _ hc hcomp hpred

theorem video_artifact_selection_C5_witness :
    jget (RunwayAgent.check_status "task-1"
      (HttpResult.resp 200 "" (.ok { status := some "SUCCEEDED",
                                     artifacts := [{ url := some "https://cdn.example/poster.png",
                                                     metadata := some {} },
                                                   { url := some "https://cdn.example/clip2.mp4",
                                                     metadata := some { frameRate := some 24 } }] })))
      "video_url" = some (.str "https://cdn.example/clip2.mp4") := by
  have h := video_artifact_selection_C5 "task-1" "" 200
    { status := some "SUCCEEDED",
      artifacts := [{ url := some "https://cdn.example/poster.png", metadata := some {} },
                    { url := some "https://cdn.example/clip2.mp4",
                      metadata := some { frameRate := some 24 } }] }
    { url := some "https://cdn.example/clip2.mp4", metadata := some { frameRate := some 24 } }
    (by omega) rfl
    (by
      intro b hb
      simp only [List.mem_cons, List.mem_singleton] at hb
      rcases hb with hb | hb | hb
      · subst hb; simp [RunwayAgent.metaOf]
      · subst hb
        simp only [RunwayAgent.metaOf, Option.getD_some]
        intro hcc
        rw [Option.some_inj] at hcc
        norm_num at hcc
      · cases hb)
    (by simp [List.find?, RunwayAgent.metaOf])
  simpa [optStr] using h

/-- C6 counterexample: a SUCCEEDED poll carrying the provider ratio 0 is
falsy for the truthiness test, so the adapter reports progress 100 even
though floor(0 x 100) = 0. -/
theorem progress_zero_ratio_counterexample_C6 :
    numAt (RunwayAgent.check_status "task-1"
      (HttpResult.resp 200 "" (.ok { status := some "SUCCEEDED", progressRatio := some 0 })))
      "progress" = some 100 ∧ (⌊(0 : ℚ) * 100⌋ : ℤ) = 0 := by
  constructor
  · simp [RunwayAgent.check_status, RunwayAgent.mappedStatus, RunwayAgent.progressValue,
          RunwayAgent.status_map, numAt, jget, List.lookup, pyLower]
  · norm_num

/-- C6 amended: a poll response carrying a non-zero (truthy), non-negative
provider ratio r is normalized to progress floor(r x 100); when the ratio
is absent the progress is 100 exactly when the normalized status is
completed and 0 otherwise (a present ratio of exactly 0 is treated as
absent by the truthiness test). -/
theorem progress_computation_C6 (task_id text : String) (code : Nat)
    (result : RunwayAgent.TaskResult) (hc : ¬ 400 ≤ code) :
    (∀ q : ℚ, result.progressRatio = some q → q ≠ 0 → 0 ≤ q →
      numAt (RunwayAgent.check_status task_id (.resp code text (.ok result))) "progress"
        = some ((⌊q * 100⌋ : ℤ) : ℚ)) ∧
    (result.progressRatio = none →
      (strAt (RunwayAgent.check_status task_id (.resp code text (.ok result))) "status"
          = some "completed" →
        numAt (RunwayAgent.check_status task_id (.resp code text (.ok result))) "progress"
          = some 100) ∧
      (strAt (RunwayAgent.check_status task_id (.resp code text (.ok result))) "status"
          ≠ some "completed" →
        numAt (RunwayAgent.check_status task_id (.resp code text (.ok result))) "progress"
          = some 0)) := by
  have hp := RunwayAgent.check_status_progress_field task_id code text result hc
  have hst := RunwayAgent.check_status_status_field task_id code text result hc
  constructor
  · intro q hq hqnz hqpos
    rw [hp]
    have hb : (q != 0) = true := by simpa [bne_iff_ne] using hqnz
    have hfl : pyInt (q * 100) = ⌊q * 100⌋ := by
      unfold pyInt
      rw [if_pos (mul_nonneg hqpos (by norm_num))]
    simp [RunwayAgent.progressValue, hq, hb, hfl]
  · intro hq
    constructor
    · intro hcomp
      rw [hst] at hcomp
      rw [Option.some_inj] at hcomp
      rw [hp]
      simp [RunwayAgent.progressValue, hq, hcomp]
    · intro hcomp
      rw [hst] at hcomp
      have hne : RunwayAgent.mappedStatus result ≠ "completed" := by
        intro he; exact hcomp (by rw [he])
      rw [hp]
      simp [RunwayAgent.progressValue, hq, hne]

theorem progress_computation_C6_witness :
    numAt (RunwayAgent.check_status "task-1"
      (HttpResult.resp 200 "" (.ok { status := some "PROCESSING",
                                     progressRatio := some (42/100) })))
      "progress" = some 42 := by
  have h := (progress_computation_C6 "task-1" "" 200
    { status := some "PROCESSING", progressRatio := some (42/100) }
    (by omega)).1 (42/100) rfl (by norm_num) (by norm_num)
  rw [h]
  norm_num

/-- C3 counterexample: after a status poll observes the terminal state
failed, a second get_video_status call still contacts the provider (the
outbound-call count rises from 1 to 2) and returns a dict differing in its
last_checked field, so terminal polling is neither call-free nor
byte-identical. -/
theorem terminal_repoll_counterexample_C3 :
    strAt (App.get_video_status
        (fun _ => .resp 200 "" (.ok { jobStatus := some "failed" })) 0 "job-1" "10:00:00").1
      "status" = some "failed" ∧
    (App.get_video_status (fun _ => .resp 200 "" (.ok { jobStatus := some "failed" }))
      (App.get_video_status
        (fun _ => .resp 200 "" (.ok { jobStatus := some "failed" })) 0 "job-1" "10:00:00").2
      "job-1" "10:00:30").2 = 2 ∧
    strAt (App.get_video_status
        (fun _ => .resp 200 "" (.ok { jobStatus := some "failed" })) 0 "job-1" "10:00:00").1
      "last_checked" = some "10:00:00" ∧
    strAt (App.get_video_status (fun _ => .resp 200 "" (.ok { jobStatus := some "failed" }))
      (App.get_video_status
        (fun _ => .resp 200 "" (.ok { jobStatus := some "failed" })) 0 "job-1" "10:00:00").2
      "job-1" "10:00:30").1 "last_checked" = some "10:00:30" := by
  refine ⟨?_, rfl, ?_, ?_⟩ <;>
    simp [App.get_video_status, PikaWebAgent.check_job_status, PikaWebAgent.jobStatusOf,
          PikaWebAgent.statusData, PikaWebAgent.videosData, pyOrS, updateD, setK,
          strAt, jget, List.lookup, show "failed".isEmpty = false from rfl]

/-- C3 amended: the status endpoint performs exactly one fresh outbound
provider poll on every call, even when the previous call already observed a
terminal status; no cached terminal status exists. -/
theorem terminal_status_repolls_C3 (provider : Nat → HttpResult PikaWebAgent.JobResult)
    (calls : Nat) (job_id now1 now2 : String)
    (hterm : isTerminal
      (strAt (App.get_video_status provider calls job_id now1).1 "status") = true) :
    (App.get_video_status provider
        (App.get_video_status provider calls job_id now1).2 job_id now2).2 = calls + 2 := by
  simp [App.get_video_status]

theorem terminal_status_repolls_C3_witness :
    (App.get_video_status (fun _ => .resp 200 "" (.ok { jobStatus := some "failed" }))
      (App.get_video_status
        (fun _ => .resp 200 "" (.ok { jobStatus := some "failed" })) 7 "job-1" "10:00:00").2
      "job-1" "10:00:30").2 = 9 := by
  exact terminal_status_repolls_C3 _ 7 "job-1" "10:00:00" "10:00:30" (by
    simp [App.get_video_status, PikaWebAgent.check_job_status, PikaWebAgent.jobStatusOf,
          PikaWebAgent.statusData, PikaWebAgent.videosData, pyOrS, updateD, setK,
          strAt, jget, List.lookup, isTerminal, show "failed".isEmpty = false from rfl])

/-- C4 counterexample: a submission whose seed 4294967295 lies above the
documented range is serialized into the outbound Runway payload unchanged,
and the submission proceeds over the network and returns pending, with no
ValidationError and no clamping. -/
theorem seed_validation_counterexample_C4 :
    numAt (RunwayAgent.generationPayload
        [("text_prompt", .str "hello"), ("seed", .num 4294967295)]) "seed"
      = some 4294967295 ∧
    (4294967294 : ℚ) < 4294967295 ∧
    (RunwayAgent.generate_video [("text_prompt", .str "hello"), ("seed", .num 4294967295)]
        (.resp 200 "" (.ok [("taskId", .str "task-9")]))).outbound = 1 ∧
    strAt (RunwayAgent.generate_video [("text_prompt", .str "hello"), ("seed", .num 4294967295)]
        (.resp 200 "" (.ok [("taskId", .str "task-9")]))).response "status"
      = some "pending" := by
  refine ⟨?_, by norm_num, rfl, ?_⟩
  · simp [RunwayAgent.generationPayload, RunwayAgent.addMotionParams,
          RunwayAgent.addTruthyParams, RunwayAgent.optionalParams, RunwayAgent.motionParams,
          numAt, jget, pyGet, pyGetD, List.lookup, truthy, isNotNone, setK]
  · simp [RunwayAgent.generate_video, strAt, jget, pyGet, pyGetD, List.lookup, truthy]

/-- C4 amended: neither adapter validates the seed range.  The Runway
adapter always performs its outbound call; a falsy seed (0 or absent) is
silently omitted from the payload while any truthy seed, in range or not,
is serialized unchanged.  The Pika adapter always serializes the seed value
it was handed (null when absent). -/
theorem seed_handling_C4 :
    (∀ (data : JDict) (out : HttpResult JDict),
      (RunwayAgent.generate_video data out).outbound = 1) ∧
    (∀ data : JDict, truthy (pyGet data "seed") = false →
      hasKey (RunwayAgent.generationPayload data) "seed" = false) ∧
    (∀ data : JDict, truthy (pyGet data "seed") = true →
      jget (RunwayAgent.generationPayload data) "seed" = some (pyGet data "seed")) ∧
    (∀ data : JDict,
      jget (PikaWebAgent.payloadParameters data) "seed"
        = some (pyGet (PikaWebAgent.userParameters data) "seed")) := by
  refine ⟨?_, ?_, ?_, ?_⟩
  · intro data out
    cases out with
    | exc msg => rfl
    | resp code text body =>
      cases body with
      | error e =>
        simp only [RunwayAgent.generate_video]
        by_cases hc : 400 ≤ code
        · rw [if_pos hc]
        · rw [if_neg hc]
      | ok result =>
        simp only [RunwayAgent.generate_video]
        by_cases hc : 400 ≤ code
        · rw [if_pos hc]
        · rw [if_neg hc]
          by_cases ht : truthy (pyGet result "taskId") = true
          · rw [if_pos ht]
          · rw [if_neg ht]
  · intro data hfalse
    unfold RunwayAgent.generationPayload RunwayAgent.addMotionParams
      RunwayAgent.addTruthyParams hasKey jget
    rw [lookup_foldl_setK_not_mem _ _ _ _ _ (by decide),
        lookup_foldl_setK_cond_false _ _ _ _ _ hfalse (by simp [List.lookup])]
    rfl
  · intro data htrue
    unfold RunwayAgent.generationPayload RunwayAgent.addMotionParams
      RunwayAgent.addTruthyParams jget
    rw [lookup_foldl_setK_not_mem _ _ _ _ _ (by decide)]
    simp only [RunwayAgent.optionalParams, List.foldl_cons, List.foldl_nil]
    rw [if_pos htrue]
    exact lookup_setK_self _ _ _
  · intro data
    simp [PikaWebAgent.payloadParameters, jget, lookup_cons_kv]

theorem seed_handling_C4_witness :
    hasKey (RunwayAgent.generationPayload
        [("text_prompt", .str "hello"), ("seed", .num 0)]) "seed" = false ∧
    (RunwayAgent.generate_video [("text_prompt", .str "hello"), ("seed", .num 0)]
        (.resp 200 "" (.ok [("taskId", .str "task-9")]))).outbound = 1 := by
  constructor
  · exact seed_handling_C4.2.1 [("text_prompt", .str "hello"), ("seed", .num 0)]
      (by simp [truthy, pyGet, jget, List.lookup])
  · exact seed_handling_C4.1 [("text_prompt", .str "hello"), ("seed", .num 0)]
      (.resp 200 "" (.ok [("taskId", .str "task-9")]))

/-- C7 counterexample: the adapter's upload_asset accepts a text/plain
upload without complaint: it issues its outbound POST (one transport call)
and reports success, performing no content-type validation of its own. -/
theorem upload_content_type_counterexample_C7 :
    (RunwayAgent.upload_asset [] "notes.txt" "text/plain"
      (.resp 200 "" (.ok [("assetId", .str "asset-1"),
                          ("url", .str "https://cdn.example/a")]))).outbound = 1 ∧
    strAt (RunwayAgent.upload_asset [] "notes.txt" "text/plain"
      (.resp 200 "" (.ok [("assetId", .str "asset-1"),
                          ("url", .str "https://cdn.example/a")]))).response "status"
      = some "success" := by
  constructor
  · rfl
  · simp [RunwayAgent.upload_asset, strAt, jget, List.lookup]

/-- C7 amended: the image content-type gate is enforced by the HTTP
endpoint upload_runway_asset before the adapter runs: a non-image content
type yields an error response with zero outbound calls; the adapter itself
always performs its single outbound call whatever the content type. -/
theorem upload_content_type_gate_C7 :
    (∀ (filename : String) (formName : Option String) (ct : String) (fd : List Nat)
        (out : HttpResult JDict),
      pyStartsWith ct "image/" = false → filename ≠ "" →
      (App.upload_runway_asset true filename formName ct fd out).2 = 0 ∧
      strAt (App.upload_runway_asset true filename formName ct fd out).1 "status"
        = some "error") ∧
    (∀ (fd : List Nat) (fn ct : String) (out : HttpResult JDict),
      (RunwayAgent.upload_asset fd fn ct out).outbound = 1) := by
  constructor
  · intro filename formName ct fd out hct hfn
    simp only [App.upload_runway_asset, Bool.not_true, Bool.false_eq_true, if_false]
    rw [if_neg hfn, hct]
    constructor
    · rfl
    · simp [strAt, jget, List.lookup]
  · intro fd fn ct out
    cases out with
    | exc msg => rfl
    | resp code text body =>
      cases body with
      | error e =>
        simp only [RunwayAgent.upload_asset]
        by_cases hc : 400 ≤ code
        · rw [if_pos hc]
        · rw [if_neg hc]
      | ok result =>
        simp only [RunwayAgent.upload_asset]
        by_cases hc : 400 ≤ code
        · rw [if_pos hc]
        · rw [if_neg hc]

theorem upload_content_type_gate_C7_witness :
    (App.upload_runway_asset true "notes.txt" none "text/plain" []
      (.resp 200 "" (.ok []))).2 = 0 ∧
    strAt (App.upload_runway_asset true "notes.txt" none "text/plain" []
      (.resp 200 "" (.ok []))).1 "status" = some "error" := by
  exact upload_content_type_gate_C7.1 "notes.txt" none "text/plain" []
    (.resp 200 "" (.ok [])) (by decide) (by decide)

/-- C8 counterexample: for a Pika request that contains no pikaffect and no
seed, the serialized payload still carries a pikaffect key bound to null,
and its parameters dict carries a seed key bound to null, instead of
omitting the absent fields. -/
theorem null_serialization_counterexample_C8 :
    hasKey [("promptText", JValue.str "hi")] "pikaffect" = false ∧
    isNullAt (PikaWebAgent.generationPayload [("promptText", .str "hi")]) "pikaffect" = true ∧
    isNullAt (PikaWebAgent.payloadParameters [("promptText", .str "hi")]) "seed" = true := by
  refine ⟨rfl, ?_, ?_⟩
  · simp [PikaWebAgent.generationPayload, isNullAt, jget, pyGet, pyGetD, List.lookup, truthy]
  · simp [PikaWebAgent.payloadParameters, PikaWebAgent.userParameters, PikaWebAgent.userOptions,
          isNullAt, jget, pyGet, pyGetD, List.lookup, asObj]

/-- C8 amended: the Runway adapter omits falsy optional fields and absent
motion controls from its payload, and the Pika adapter serializes the
provider-required camera default; but the Pika adapter serializes pikaffect
and parameters.seed unconditionally, so an absent field is sent as an
explicit null rather than omitted. -/
theorem optional_field_serialization_C8 :
    (∀ data : JDict, ∀ p ∈ RunwayAgent.optionalParams, truthy (pyGet data p) = false →
      hasKey (RunwayAgent.generationPayload data) p = false) ∧
    (∀ data : JDict, ∀ p ∈ RunwayAgent.motionParams, pyGet data p = .null →
      hasKey (RunwayAgent.generationPayload data) p = false) ∧
    (∀ data : JDict,
      jget (PikaWebAgent.generationPayload data) "pikaffect" = some (pyGet data "pikaffect")) ∧
    (∀ data : JDict,
      jget (PikaWebAgent.payloadParameters data) "seed"
        = some (pyGet (PikaWebAgent.userParameters data) "seed")) ∧
    (∀ data : JDict, jget data "options" = none →
      objAt (PikaWebAgent.payloadOptions data) "camera" = some PikaWebAgent.cameraDefault) := by
  refine ⟨?_, ?_, ?_, ?_, ?_⟩
  · intro data p hp hfalse
    simp only [RunwayAgent.optionalParams, List.mem_cons, List.not_mem_nil, or_false] at hp
    unfold RunwayAgent.generationPayload RunwayAgent.addMotionParams
      RunwayAgent.addTruthyParams hasKey jget
    rcases hp with rfl | rfl | rfl <;>
      (rw [lookup_foldl_setK_not_mem _ _ _ _ _ (by decide),
           lookup_foldl_setK_cond_false _ _ _ _ _ hfalse (by simp [List.lookup])]
       rfl)
  · intro data p hp hnull
    simp only [RunwayAgent.motionParams, List.mem_cons, List.not_mem_nil, or_false] at hp
    unfold RunwayAgent.generationPayload RunwayAgent.addMotionParams
      RunwayAgent.addTruthyParams hasKey jget
    rcases hp with rfl | rfl | rfl | rfl | rfl | rfl <;>
      (rw [lookup_foldl_setK_cond_false _ _ _ _ _ (by rw [hnull]; rfl)
             (by rw [lookup_foldl_setK_not_mem _ _ _ _ _ (by decide)]
                 simp [List.lookup])]
       rfl)
  · intro data
    simp [PikaWebAgent.generationPayload, jget, lookup_cons_kv]
  · intro data
    simp [PikaWebAgent.payloadParameters, jget, lookup_cons_kv]
  · intro data hopt
    simp only [jget] at hopt
    simp [PikaWebAgent.payloadOptions, PikaWebAgent.userOptions, objAt, jget, pyGetD,
          lookup_cons_kv, hopt, asObj]

theorem optional_field_serialization_C8_witness :
    hasKey (RunwayAgent.generationPayload [("promptText", JValue.str "hi")])
      "firstImage_assetId" = false := by
  exact optional_field_serialization_C8.1 [("promptText", JValue.str "hi")]
    "firstImage_assetId" (by decide) (by decide)

/-- C9: every operation of both adapters returns a dict that carries a
status key on every outcome, and a transport exception is converted to a
status of error with the operation's human-readable message; no exception
escapes the adapter. -/
theorem error_normalization_C9 :
    (∀ (task_id : String) (out : HttpResult RunwayAgent.TaskResult),
      hasKey (RunwayAgent.check_status task_id out) "status" = true) ∧
    (∀ (data : JDict) (out : HttpResult JDict),
      hasKey (RunwayAgent.generate_video data out).response "status" = true) ∧
    (∀ (fd : List Nat) (fn ct : String) (out : HttpResult JDict),
      hasKey (RunwayAgent.upload_asset fd fn ct out).response "status" = true) ∧
    (∀ (mt : String) (o l : ℤ) (out : HttpResult JValue),
      hasKey (RunwayAgent.get_assets mt o l out) "status" = true) ∧
    (∀ (data : JDict) (out : HttpResult JValue),
      hasKey (PikaWebAgent.generate_video data out).response "status" = true) ∧
    (∀ (job_id now : String) (out : HttpResult PikaWebAgent.JobResult),
      hasKey (PikaWebAgent.check_job_status job_id now out) "status" = true) ∧
    (∀ (task_id msg : String),
      strAt (RunwayAgent.check_status task_id (.exc msg)) "status" = some "error" ∧
      strAt (RunwayAgent.check_status task_id (.exc msg)) "message"
        = some ("Error checking status: " ++ msg)) ∧
    (∀ (data : JDict) (msg : String),
      strAt (RunwayAgent.generate_video data (.exc msg)).response "status" = some "error" ∧
      strAt (RunwayAgent.generate_video data (.exc msg)).response "message"
        = some ("Error starting video generation: " ++ msg)) ∧
    (∀ (fd : List Nat) (fn ct msg : String),
      strAt (RunwayAgent.upload_asset fd fn ct (.exc msg)).response "status" = some "error" ∧
      strAt (RunwayAgent.upload_asset fd fn ct (.exc msg)).response "message"
        = some ("Error uploading asset: " ++ msg)) ∧
    (∀ (mt : String) (o l : ℤ) (msg : String),
      strAt (RunwayAgent.get_assets mt o l (.exc msg)) "status" = some "error" ∧
      strAt (RunwayAgent.get_assets mt o l (.exc msg)) "message"
        = some ("Request failed: " ++ msg)) ∧
    (∀ (data : JDict) (msg : String),
      strAt (PikaWebAgent.generate_video data (.exc msg)).response "status" = some "error" ∧
      strAt (PikaWebAgent.generate_video data (.exc msg)).response "message"
        = some ("Error starting video generation: " ++ msg)) ∧
    (∀ (job_id now msg : String),
      strAt (PikaWebAgent.check_job_status job_id now (.exc msg)) "status" = some "error" ∧
      strAt (PikaWebAgent.check_job_status job_id now (.exc msg)) "message"
        = some ("Error checking status: " ++ msg)) := by
  refine ⟨RunwayAgent.check_status_has_status, RunwayAgent.generate_video_has_status,
    RunwayAgent.upload_asset_has_status, RunwayAgent.get_assets_has_status,
    PikaWebAgent.pika_generate_video_has_status, PikaWebAgent.check_job_status_has_status,
    ?_, ?_, ?_, ?_, ?_, ?_⟩
  · intro task_id msg
    exact ⟨by simp [RunwayAgent.check_status, strAt, jget, List.lookup],
           by simp [RunwayAgent.check_status, strAt, jget, List.lookup]⟩
  · intro data msg
    exact ⟨by simp [RunwayAgent.generate_video, strAt, jget, List.lookup],
           by simp [RunwayAgent.generate_video, strAt, jget, List.lookup]⟩
  · intro fd fn ct msg
    exact ⟨by simp [RunwayAgent.upload_asset, strAt, jget, List.lookup],
           by simp [RunwayAgent.upload_asset, strAt, jget, List.lookup]⟩
  · intro mt o l msg
    exact ⟨by simp [RunwayAgent.get_assets, strAt, jget, List.lookup],
           by simp [RunwayAgent.get_assets, strAt, jget, List.lookup]⟩
  · intro data msg
    exact ⟨by simp [PikaWebAgent.generate_video, strAt, jget, List.lookup],
           by simp [PikaWebAgent.generate_video, strAt, jget, List.lookup]⟩
  · intro job_id now msg
    exact ⟨by simp [PikaWebAgent.check_job_status, strAt, jget, List.lookup],
           by simp [PikaWebAgent.check_job_status, strAt, jget, List.lookup]⟩

/-- C10: optimize_prompt always returns at most 300 characters: the
successful crew output is stripped and truncated to 300, and the fallback
on an internal failure is the first 300 characters of the transcript. -/
theorem optimize_prompt_length_C10 :
    (∀ (t : List Char) (o : Option (List Char)),
      (PikaWebAgent.optimize_prompt t o).length ≤ 300) ∧
    (∀ t : List Char, PikaWebAgent.optimize_prompt t none = t.take 300) ∧
    (∀ (t p : List Char),
      PikaWebAgent.optimize_prompt t (some p) = (PikaWebAgent.pyStrip p).take 300) := by
  refine ⟨?_, fun t => rfl, fun t p => rfl⟩
  intro t o
  cases o with
  | none =>
    simp only [PikaWebAgent.optimize_prompt]
    rw [List.length_take]
    exact min_le_left _ _
  | some p =>
    simp only [PikaWebAgent.optimize_prompt]
    rw [List.length_take]
    exact min_le_left _ _
